import Mathlib

/-!
Shallow embedding of src/main.py: the FastAPI route handler
`read_product_item` bound to GET /products/{category}/items/{item_id}.
The handler builds a dictionary from its coerced parameters and returns
it; the response is modelled as an association list from keys to
JSON-like values, and the Python float `discount` as a rational number
(the handler only echoes it, no floating-point arithmetic occurs).
-/

/-- JSON-like values appearing in the handler's response mapping. -/
inductive Value where
  | str : String → Value
  | int : Int → Value
  | bool : Bool → Value
  | num : Rat → Value
  deriving DecidableEq, Repr

/-- The handler body of `read_product_item` (src/main.py, lines 7-30):
given the already-coerced parameters, build the item dictionary
`{category, item_id, urgent, discount_applied}` and return it. -/
def read_product_item (category : String) (item_id : Int)
    (urgent : Bool) (discount : Rat) : List (String × Value) :=
  [ ("category", Value.str category),
    ("item_id", Value.int item_id),
    ("urgent", Value.bool urgent),
    ("discount_applied", Value.num discount)]

/-- Declared default of the optional query parameter `urgent`
(src/main.py line 10: `urgent: bool = False`). -/
def urgent_default : Bool := false

/-- Declared default of the optional query parameter `discount`
(src/main.py line 11: `discount: float = 0.0`). -/
def discount_default : Rat := 0

/-- A routed request as it reaches the handler: coerced path parameters
plus the optional query parameters, `none` when omitted from the URL. -/
structure Request where
  category : String
  item_id : Int
  urgent : Option Bool
  discount : Option Rat
  deriving DecidableEq, Repr

/-- Invoke the handler on a request, substituting the declared signature
defaults (src/main.py lines 10-11) for omitted query parameters, as the
framework's parameter binding does. -/
def handle (r : Request) : List (String × Value) :=
  read_product_item r.category r.item_id
    (r.urgent.getD urgent_default) (r.discount.getD discount_default)

/-- Modelled from the spec: integer coercion of a raw path token, as
performed by the external routing/validation collaborator (missing
from src/). A token is an optional leading minus sign followed by at
least one decimal digit; anything else fails to coerce. -/
def parseDigits (l : List Char) : Option Nat :=
  l.foldl
    (fun acc c =>
      match acc with
      | none => none
      | some n => if c.isDigit then some (n * 10 + (c.toNat - 48)) else none)
    (some 0)

/-- Modelled from the spec: coercion of a raw token to an integer,
rejecting empty tokens and tokens with non-digit characters. -/
def parseIntToken (s : String) : Option Int :=
  match s.data with
  | [] => none
  | '-' :: rest =>
      if rest.isEmpty then none
      else (parseDigits rest).map (fun n => -(n : Int))
  | l => (parseDigits l).map (fun n => (n : Int))

/-- Modelled from the spec: the external routing/validation collaborator.
Missing from src/ (it lives in the web framework): it coerces the raw
`item_id` path segment to an integer and, when coercion fails, rejects
the request with a client-error response (HTTP 422) before the handler
body executes; on success it invokes the handler. Raw query tokens are
taken as already coerced by the same collaborator. -/
def route (category rawItemId : String)
    (urgent : Option Bool) (discount : Option Rat) :
    Except Nat (List (String × Value)) :=
  match parseIntToken rawItemId with
  | none => Except.error 422
  | some i => Except.ok (handle ⟨category, i, urgent, discount⟩)

/-- C1: every invocation of `read_product_item` returns a mapping whose
keys are exactly `category`, `item_id`, `urgent`, `discount_applied`, in
this order of fields — the input parameter `discount` appears under the
output key `discount_applied` — and no other key is ever present,
omitted, or renamed. -/
theorem read_product_item_keys (category : String) (item_id : Int)
    (urgent : Bool) (discount : Rat) :
    (read_product_item category item_id urgent discount).map Prod.fst =
      [ "category", "item_id", "urgent", "discount_applied"] := rfl

/-- C2: every value of the output mapping equals the corresponding
coerced input exactly: `category` maps to the input category string,
`item_id` to the input integer, `urgent` to the input boolean, and
`discount_applied` to the input discount number, with no transformation
applied. -/
theorem read_product_item_values (category : String) (item_id : Int)
    (urgent : Bool) (discount : Rat) :
    (read_product_item category item_id urgent discount).lookup "category" =
        some (Value.str category) ∧
    (read_product_item category item_id urgent discount).lookup "item_id" =
        some (Value.int item_id) ∧
    (read_product_item category item_id urgent discount).lookup "urgent" =
        some (Value.bool urgent) ∧
    (read_product_item category item_id urgent discount).lookup "discount_applied" =
        some (Value.num discount) :=
  ⟨rfl, rfl, rfl, rfl⟩

/-- C3: for every category and item_id, omitting the `urgent` query
parameter yields `urgent = false` in the response (whatever `discount`
is), and omitting the `discount` query parameter yields
`discount_applied = 0.0` (whatever `urgent` is): the declared defaults
are `false` and `0.0`. -/
theorem handle_defaults (category : String) (item_id : Int) :
    (∀ d : Option Rat,
      (handle ⟨category, item_id, none, d⟩).lookup "urgent" =
        some (Value.bool false)) ∧
    (∀ u : Option Bool,
      (handle ⟨category, item_id, u, none⟩).lookup "discount_applied" =
        some (Value.num 0)) :=
  ⟨fun _ => rfl, fun _ => rfl⟩

/-- C4: the handler is deterministic and pure: two invocations with
identical coerced inputs produce equal output mappings; as a plain
function of its arguments it touches no outside state. -/
theorem read_product_item_deterministic
    (c₁ c₂ : String) (i₁ i₂ : Int) (u₁ u₂ : Bool) (d₁ d₂ : Rat)
    (hc : c₁ = c₂) (hi : i₁ = i₂) (hu : u₁ = u₂) (hd : d₁ = d₂) :
    read_product_item c₁ i₁ u₁ d₁ = read_product_item c₂ i₂ u₂ d₂ := by
  subst hc hi hu hd; rfl

/-- Witness for C4 at concrete inputs. -/
theorem read_product_item_deterministic_witness :
    read_product_item "books" 7 true (31/2) =
      read_product_item "books" 7 true (31/2) :=
  read_product_item_deterministic "books" "books" 7 7 true true (31/2) (31/2)
    rfl rfl rfl rfl

/-- C5: a negative discount is accepted and echoed unchanged: with
category = "food", item_id = 3, `urgent` omitted and discount = -5, the
handler returns exactly the expected mapping; no validation rejects
negative discounts. -/
theorem handle_negative_discount :
    handle ⟨ "food", 3, none, some (-5)⟩ =
      [ ("category", Value.str "food"),
        ("item_id", Value.int 3),
        ("urgent", Value.bool false),
        ("discount_applied", Value.num (-5))] := rfl

/-- C6: scenario 2 — category "books", item_id 7, urgent true, discount
15.5 — returns exactly the expected mapping; and scenario 1 — category
"electronics", item_id 42, both query parameters omitted — returns
exactly the expected mapping with the defaults. -/
theorem handle_scenarios :
    handle ⟨ "books", 7, some true, some (15.5 : Rat)⟩ =
      [ ("category", Value.str "books"),
        ("item_id", Value.int 7),
        ("urgent", Value.bool true),
        ("discount_applied", Value.num (15.5 : Rat))] ∧
    handle ⟨ "electronics", 42, none, none⟩ =
      [ ("category", Value.str "electronics"),
        ("item_id", Value.int 42),
        ("urgent", Value.bool false),
        ("discount_applied", Value.num 0)] :=
  ⟨rfl, rfl⟩

/-- C7: once invoked with well-typed parameters the handler cannot fail:
it is a total function with no error path, and always returns a result
(the four-entry mapping). -/
theorem handle_total (r : Request) :
    ∃ item, handle r = item ∧ item.length = 4 :=
  ⟨handle r, rfl, rfl⟩

/-- C8: a request whose raw `item_id` path segment does not parse as an
integer is rejected with a client-error response (HTTP 422) by the
routing/validation collaborator, and the handler body never executes
(the route never produces a handler result for it). -/
theorem route_rejects_bad_item_id (category rawItemId : String)
    (urgent : Option Bool) (discount : Option Rat)
    (h : parseIntToken rawItemId = none) :
    route category rawItemId urgent discount = Except.error 422 := by
  simp [route, h]

/-- Witness for C8: scenario 3, GET /products/toys/items/abc. -/
theorem route_rejects_bad_item_id_witness :
    parseIntToken "abc" = none ∧
      route "toys" "abc" none none = Except.error 422 :=
  ⟨by decide, route_rejects_bad_item_id "toys" "abc" none none (by decide)⟩

/-- C9: noninterference — each output field depends only on its own
input parameter: whenever two invocations agree on one of the four
parameters, their outputs agree on the corresponding key, regardless of
the other three parameters. -/
theorem read_product_item_noninterference
    (c₁ c₂ : String) (i₁ i₂ : Int) (u₁ u₂ : Bool) (d₁ d₂ : Rat) :
    (c₁ = c₂ →
      (read_product_item c₁ i₁ u₁ d₁).lookup "category" =
        (read_product_item c₂ i₂ u₂ d₂).lookup "category") ∧
    (i₁ = i₂ →
      (read_product_item c₁ i₁ u₁ d₁).lookup "item_id" =
        (read_product_item c₂ i₂ u₂ d₂).lookup "item_id") ∧
    (u₁ = u₂ →
      (read_product_item c₁ i₁ u₁ d₁).lookup "urgent" =
        (read_product_item c₂ i₂ u₂ d₂).lookup "urgent") ∧
    (d₁ = d₂ →
      (read_product_item c₁ i₁ u₁ d₁).lookup "discount_applied" =
        (read_product_item c₂ i₂ u₂ d₂).lookup "discount_applied") := by
  refine ⟨?_, ?_, ?_, ?_⟩ <;> rintro rfl <;> rfl

/-- Witness for C9: each conjunct applied at concrete inputs where the
other three parameters differ. -/
theorem read_product_item_noninterference_witness :
    ((read_product_item "a" 1 true 1).lookup "category" =
        (read_product_item "a" 2 false 2).lookup "category") ∧
    ((read_product_item "a" 1 true 1).lookup "item_id" =
        (read_product_item "b" 1 false 2).lookup "item_id") ∧
    ((read_product_item "a" 1 true 1).lookup "urgent" =
        (read_product_item "b" 2 true 2).lookup "urgent") ∧
    ((read_product_item "a" 1 true 1).lookup "discount_applied" =
        (read_product_item "b" 2 false 1).lookup "discount_applied") :=
  ⟨(read_product_item_noninterference "a" "a" 1 2 true false 1 2).1 rfl,
   (read_product_item_noninterference "a" "b" 1 1 true false 1 2).2.1 rfl,
   (read_product_item_noninterference "a" "b" 1 2 true true 1 2).2.2.1 rfl,
   (read_product_item_noninterference "a" "b" 1 2 true false 1 1).2.2.2 rfl⟩

/-- C10: the handler body imposes no value constraints beyond the types:
for every category string (the empty string included) and every integer
item_id (zero and negatives included) it succeeds — returning the
four-entry mapping — and echoes those exact values. -/
theorem read_product_item_unconstrained (category : String) (item_id : Int)
    (urgent : Bool) (discount : Rat) :
    (read_product_item category item_id urgent discount).length = 4 ∧
    (read_product_item category item_id urgent discount).lookup "category" =
        some (Value.str category) ∧
    (read_product_item category item_id urgent discount).lookup "item_id" =
        some (Value.int item_id) :=
  ⟨rfl, rfl, rfl⟩
